import Mathlib

/-!
Verification of the request-construction layer of the `electrum_jsonrpc` crate
(`src/lib.rs`, `src/error.rs`, `src/btc.rs`).

The embedding mirrors the Rust source:
* `ElectrumMethod` and `Param` are the two serde-serialized enums, with their
  wire names (`rename_all = "lowercase"` plus the explicit `rename`
  attributes) given by `methodWire` and `paramWire`.
* `JsonRpcBodyBuilder` / `JsonRpcBody` mirror the builder and the request
  envelope.  The `params : HashMap<Param, Value>` field is modelled as an
  association list with `insertParam` reproducing `HashMap::insert`
  (replace the value of an existing key in place, append a fresh key);
  no claim below depends on iteration order of a multi-entry map.
* `serializeBody` reproduces `serde_json::to_string` on `JsonRpcBody`:
  struct fields in declaration order, the `f32` field printed in shortest
  (Ryu) form, map entries as a JSON object.
* Rust strings that are used only as opaque parameter values are modelled
  as Lean `String`s; byte-level reasoning (base64) uses `List Nat` with an
  explicit `< 256` bound.
-/

/-- Model of `serde_json::Value` restricted to the constructors this crate
produces (`null`, booleans, numbers, strings, arrays).  The `num`
constructor exists so that "the amount is sent as a string, never as a
number" is a contentful statement; no operation of the crate constructs it. -/
inductive Json where
  | null : Json
  | bool (b : Bool) : Json
  | num (q : Rat) : Json
  | str (s : String) : Json
  | arr (xs : List Json) : Json

/-- Model of the serde-derived `ElectrumMethod` enum (src/lib.rs lines 25-68). -/
inductive ElectrumMethod where
  | Broadcast | PayTo | PayToMany | GetInfo | GetBalance
  | GetAddressHistory | GetAddressBalance | ListWallets | CloseWallet
  | LoadWallet | CreateWallet | RestoreWallet | ListAddresses
  | ListRequests | Notify | Help | Empty | SignTransaction
  | AddRequest | RemoveRequest
deriving DecidableEq

/-- Wire name of each `ElectrumMethod` variant: `rename_all = "lowercase"`
with the explicit `serde(rename = ...)` attributes of the source. -/
def methodWire : ElectrumMethod → String
  | .Broadcast => "broadcast"
  | .PayTo => "payto"
  | .PayToMany => "paytomany"
  | .GetInfo => "getinfo"
  | .GetBalance => "getbalance"
  | .GetAddressHistory => "getaddresshistory"
  | .GetAddressBalance => "getaddressbalance"
  | .ListWallets => "list_wallets"
  | .CloseWallet => "close_wallet"
  | .LoadWallet => "load_wallet"
  | .CreateWallet => "create"
  | .RestoreWallet => "restore"
  | .ListAddresses => "listaddresses"
  | .ListRequests => "list_requests"
  | .Notify => "notify"
  | .Help => "help"
  | .Empty => "empty"
  | .SignTransaction => "signtransaction"
  | .AddRequest => "add_request"
  | .RemoveRequest => "rmrequest"

/-- Model of the serde-derived `Param` enum (src/lib.rs lines 70-96). -/
inductive Param where
  | Text | Transaction | BtcAddress | Destination | WalletPath
  | Url | Password | Fee | Outputs | Amount | Memo
  | Pending | Expired | Paid
deriving DecidableEq

/-- Wire name of each `Param` variant: `rename_all = "lowercase"` with the
explicit `serde(rename = ...)` attributes of the source. -/
def paramWire : Param → String
  | .Text => "text"
  | .Transaction => "tx"
  | .BtcAddress => "address"
  | .Destination => "destination"
  | .WalletPath => "wallet_path"
  | .Url => "URL"
  | .Password => "password"
  | .Fee => "fee"
  | .Outputs => "outputs"
  | .Amount => "amount"
  | .Memo => "memo"
  | .Pending => "pending"
  | .Expired => "expired"
  | .Paid => "paid"

/-- Model of `HashMap::insert` on the `params` map: replace the value of an
existing key in place, append a fresh key at the end. -/
def insertParam : List (Param × Json) → Param → Json → List (Param × Json)
  | [], k, v => [(k, v)]
  | (k', v') :: rest, k, v =>
      if k' = k then (k, v) :: rest else (k', v') :: insertParam rest k v

/-- Lookup in the `params` map (first binding of the key; keys are unique
by construction of `insertParam`). -/
def lookupParam : List (Param × Json) → Param → Option Json
  | [], _ => none
  | (k, v) :: rest, p => if k = p then some v else lookupParam rest p

/-- Model of `JsonRpcBodyBuilder` (src/lib.rs lines 98-103). -/
structure JsonRpcBodyBuilder where
  json_rpc : Rat
  id : Nat
  method : ElectrumMethod
  params : List (Param × Json)

/-- Model of `JsonRpcBody` (src/lib.rs lines 140-146). -/
structure JsonRpcBody where
  json_rpc : Rat
  id : Nat
  method : ElectrumMethod
  params : List (Param × Json)

/-- Model of `JsonRpcBodyBuilder::new` (src/lib.rs lines 106-113):
version 2.0, id 0, method `Empty`, empty parameter map. -/
def JsonRpcBodyBuilder.new : JsonRpcBodyBuilder :=
  { json_rpc := 2, id := 0, method := ElectrumMethod.Empty, params := [] }

/-- Model of the builder's `id` setter (src/lib.rs lines 115-118);
renamed `withId` because `id` is already the field accessor. -/
def JsonRpcBodyBuilder.withId (b : JsonRpcBodyBuilder) (i : Nat) : JsonRpcBodyBuilder :=
  { b with id := i }

/-- Model of the builder's `method` setter (src/lib.rs lines 120-123);
renamed `withMethod` because `method` is already the field accessor. -/
def JsonRpcBodyBuilder.withMethod (b : JsonRpcBodyBuilder) (m : ElectrumMethod) : JsonRpcBodyBuilder :=
  { b with method := m }

/-- Model of `JsonRpcBodyBuilder::add_param` (src/lib.rs lines 125-128):
`self.params.insert(param, value)`. -/
def JsonRpcBodyBuilder.addParam (b : JsonRpcBodyBuilder) (p : Param) (v : Json) : JsonRpcBodyBuilder :=
  { b with params := insertParam b.params p v }

/-- Model of `JsonRpcBodyBuilder::build` (src/lib.rs lines 130-137). -/
def JsonRpcBodyBuilder.build (b : JsonRpcBodyBuilder) : JsonRpcBody :=
  { json_rpc := b.json_rpc, id := b.id, method := b.method, params := b.params }

/-- Model of `JsonRpcBody::new` (src/lib.rs lines 148-152): returns a fresh
builder. -/
def JsonRpcBody.new : JsonRpcBodyBuilder := JsonRpcBodyBuilder.new

/-- Hexadecimal digit used by serde_json's `\u00XX` escapes (lowercase). -/
def hexDigit (n : Nat) : Char :=
  if n < 10 then Char.ofNat (48 + n) else Char.ofNat (87 + n)

/-- Model of serde_json's string-character escaping: quote and backslash are
backslash-escaped, the control characters BS, TAB, LF, FF, CR have short
escapes, the remaining control characters below 0x20 become `\u00XX`, and
every other character is emitted as itself (serde_json writes raw UTF-8). -/
def jsonEscapeChar (c : Char) : String :=
  if c == '"' then "\\\""
  else if c == '\\' then "\\\\"
  else if c == Char.ofNat 8 then "\\b"
  else if c == Char.ofNat 9 then "\\t"
  else if c == Char.ofNat 10 then "\\n"
  else if c == Char.ofNat 12 then "\\f"
  else if c == Char.ofNat 13 then "\\r"
  else if c.toNat < 32 then
    "\\u00" ++ String.mk [hexDigit (c.toNat / 16), hexDigit (c.toNat % 16)]
  else String.singleton c

/-- Concatenation of a list of strings. -/
def concatAll : List String → String
  | [] => ""
  | x :: rest => x ++ concatAll rest

/-- Model of serde_json's serialization of a string value. -/
def serializeStr (s : String) : String :=
  "\"" ++ concatAll (s.data.map jsonEscapeChar) ++ "\""

/-- Rendering of the envelope's `f32` version field, as serde_json does via
the Ryu shortest-decimal algorithm.  The only value the program ever stores
in that field is `2.0` (the builder fixes `json_rpc: 2.0` and exposes no
setter for it), and Ryu prints an integral float as
its digits followed by `.0`; non-integral values cannot occur and fall back
to the exact rational digits. -/
def renderF32 (q : Rat) : String :=
  if q.den = 1 then (toString q.num) ++ ".0" else toString q

mutual

/-- Model of serde_json's compact serialization of a `Value`. -/
def serializeJson : Json → String
  | .null => "null"
  | .bool b => if b then "true" else "false"
  | .num q => renderF32 q
  | .str s => serializeStr s
  | .arr xs => "[" ++ serializeJsonList xs ++ "]"

/-- Comma-separated serialization of the elements of a JSON array. -/
def serializeJsonList : List Json → String
  | [] => ""
  | [x] => serializeJson x
  | x :: y :: rest => serializeJson x ++ "," ++ serializeJsonList (y :: rest)

end

/-- Model of serde_json's serialization of the `params` map: a JSON object
whose keys are the `Param` wire names.  The model emits entries in the
order of the association list; the Rust `HashMap` iterates in an
unspecified order, and no claim below concerns the exact text of a map
with more than one entry. -/
def serializeParams (ps : List (Param × Json)) : String :=
  "\x7b" ++
    concatAll ((ps.map (fun kv => serializeStr (paramWire kv.1) ++ ":" ++ serializeJson kv.2)).intersperse (",")) ++
    "\x7d"

/-- Model of `serde_json::to_string` on `JsonRpcBody` (the payload built in
`call_method`, src/lib.rs line 215): the derived serializer emits the
struct fields in declaration order. -/
def serializeBody (b : JsonRpcBody) : String :=
  "\x7b\"json_rpc\":" ++ renderF32 b.json_rpc ++
    ",\"id\":" ++ (toString b.id) ++
    ",\"method\":" ++ serializeStr (methodWire b.method) ++
    ",\"params\":" ++ serializeParams b.params ++ "\x7d"

/-- Model of `rust_decimal::Decimal`: a sign, an unsigned integral mantissa
(96 bits in Rust; the width plays no role in any claim) and a scale, the
number of fractional digits.  The represented value is
`(-1)^neg * mantissa / 10^scale`. -/
structure Decimal where
  neg : Bool
  mantissa : Nat
  scale : Nat
deriving DecidableEq

/-- Model of `Decimal::to_string` (used via `amount.to_string()` and by the
serde `Serialize` impl of `rust_decimal` with its default string
representation): the mantissa digits with a decimal point inserted `scale`
places from the right, left-padded with zeros so at least one digit
precedes the point; trailing zeros are preserved. -/
def Decimal.toStr (d : Decimal) : String :=
  let ds := Nat.repr d.mantissa
  let padded :=
    if ds.length ≤ d.scale then
      String.mk (List.replicate (d.scale + 1 - ds.length) ('0')) ++ ds
    else ds
  let intPart := padded.take (padded.length - d.scale)
  let fracPart := padded.drop (padded.length - d.scale)
  (if d.neg then "-" else "") ++
    (if d.scale = 0 then intPart else intPart ++ "." ++ fracPart)

/-- Spot check of the decimal rendering at the spec's own example:
`0.00001` (mantissa 1, scale 5) prints as `"0.00001"`. -/
theorem decimal_toStr_example : Decimal.toStr ⟨false, 1, 5⟩ = "0.00001" := by rfl

/-- Model of `BtcAddress` (src/btc.rs): a wrapper around an address string;
`Value::from(&BtcAddress)` is `json!(address.address)`, i.e. a JSON string. -/
structure BtcAddress where
  address : String
deriving DecidableEq

/-- Error kinds of `http::uri::InvalidUri` that the model distinguishes.
`ElectrumRpcError` wraps every one of them as `AddressError`, so only the
success/failure split is ever observable through this crate. -/
inductive UriError where
  | empty
  | invalidChar
  | invalidFormat
deriving DecidableEq

/-- Parsed form of an `http::Uri` (hyper 0.14 / http 0.2): optional scheme,
authority, and path-and-query. -/
structure UriModel where
  scheme : Option String
  authority : String
  pathAndQuery : String
deriving DecidableEq

/-- Characters the http crate's URI table accepts (scheme, authority and
path positions all draw from this set; the model covers ASCII input
without percent-escaping, IPv6 brackets, userinfo or fragments — none of
which occur in this repository). -/
def isUriChar (c : Char) : Bool :=
  c.isAlphanum || c == '!' || c == '$' || c == '&' || c == Char.ofNat 39 ||
    c == '(' || c == ')' || c == '*' || c == '+' || c == ',' || c == '-' ||
    c == '.' || c == '/' || c == ':' || c == ';' || c == '=' || c == '?' ||
    c == '@' || c == '[' || c == ']' || c == '_' || c == '~'

/-- Characters allowed inside a scheme name: alphanumerics, `+`, `-`, `.`. -/
def isSchemeChar (c : Char) : Bool :=
  c.isAlphanum || c == '+' || c == '-' || c == '.'

/-- Characters that may appear in an authority; `/`, `?` and `#` terminate
it. -/
def isAuthChar (c : Char) : Bool :=
  isUriChar c && !(c == '/' || c == '?' || c == '#')

/-- Scheme scan of `http::Uri` parsing: walk the characters; at the first
`:`, a following `//` yields a scheme (whose characters must all be scheme
characters), anything else means the string has no scheme and is retried
as an authority; an invalid URI character before any `:` is an error, and
`%` stops the scan without an error. -/
def schemeScan (acc : List Char) : List Char → Except UriError (Option (String × List Char))
  | [] => Except.ok none
  | ':' :: '/' :: '/' :: rest =>
      if acc.isEmpty then Except.error UriError.invalidFormat
      else if acc.reverse.all isSchemeChar then Except.ok (some (String.mk acc.reverse, rest))
      else Except.error UriError.invalidChar
  | ':' :: _ => Except.ok none
  | c :: cs =>
      if c == '%' then Except.ok none
      else if isUriChar c then schemeScan (c :: acc) cs
      else Except.error UriError.invalidChar

/-- Model of `http::Uri::from_str` (`Uri::from_shared` in http 0.2, the
version used by hyper 0.14), for the ASCII fragment described at
`isUriChar`:
* the empty string is rejected (`ErrorKind::Empty`);
* `"/"` and `"*"` are the origin-form and asterisk-form special cases;
* any other single character must be a valid authority character;
* a leading `/` makes the whole string a path-and-query (origin form);
* otherwise the scheme scan runs: with a scheme, the remainder up to the
  first `/` or `?` is a non-empty authority and the rest the path; with no
  scheme the *entire* string must be a valid authority — a scheme-less
  `host:port` such as `"127.0.0.1:7000"` therefore parses successfully as
  an authority-form URI, and only strings that fail the authority grammar
  (or contain a path, query or fragment without a scheme) are rejected. -/
def uriParse (s : String) : Except UriError UriModel :=
  match s.data with
  | [] => Except.error UriError.empty
  | [c] =>
      if c == '/' then Except.ok ⟨none, "", "/"⟩
      else if c == '*' then Except.ok ⟨none, "", "*"⟩
      else if isAuthChar c then Except.ok ⟨none, String.mk [c], ""⟩
      else Except.error UriError.invalidChar
  | c :: cs =>
      if c == '/' then
        if (c :: cs).all isUriChar then Except.ok ⟨none, "", s⟩
        else Except.error UriError.invalidChar
      else
        match schemeScan [] (c :: cs) with
        | Except.error e => Except.error e
        | Except.ok none =>
            if (c :: cs).all isAuthChar then Except.ok ⟨none, s, ""⟩
            else Except.error UriError.invalidFormat
        | Except.ok (some (sch, rest)) =>
            let auth := rest.takeWhile isAuthChar
            let remainder := rest.drop auth.length
            if auth.isEmpty then Except.error UriError.empty
            else
              match remainder with
              | [] => Except.ok ⟨some sch, String.mk auth, ""⟩
              | r :: _ =>
                  if (r == '/' || r == '?') && remainder.all isUriChar then
                    Except.ok ⟨some sch, String.mk auth, String.mk remainder⟩
                  else Except.error UriError.invalidChar

/-- Display form of a parsed URI (`http::Uri` renders scheme, `://`,
authority, then path-and-query). -/
def uriToString (u : UriModel) : String :=
  (match u.scheme with
   | some sch => sch ++ "://"
   | none => "") ++ u.authority ++ u.pathAndQuery

/-- Model of `Uri::from_static`: parse the literal and panic (`none`) when
it is not a valid URI. -/
def uriFromStatic (s : String) : Option UriModel :=
  (uriParse s).toOption

/-- Model of `ElectrumRpcError` (src/error.rs): `AddressError` keeps the
`InvalidUri` cause; the other three variants wrap external error types
that carry no information relevant to this development. -/
inductive ElectrumRpcError where
  | addressError (e : UriError)
  | hyperHttpError
  | hyperHttpStreamError
  | jsonError
deriving DecidableEq

/-- The standard base64 alphabet (RFC 4648), the one `base64::encode` uses. -/
def b64Alphabet : List Char :=
  [ 'A', 'B', 'C', 'D', 'E', 'F', 'G', 'H', 'I', 'J', 'K', 'L', 'M',
    'N', 'O', 'P', 'Q', 'R', 'S', 'T', 'U', 'V', 'W', 'X', 'Y', 'Z',
    'a', 'b', 'c', 'd', 'e', 'f', 'g', 'h', 'i', 'j', 'k', 'l', 'm',
    'n', 'o', 'p', 'q', 'r', 's', 't', 'u', 'v', 'w', 'x', 'y', 'z',
    '0', '1', '2', '3', '4', '5', '6', '7', '8', '9', '+', '/' ]

/-- Character encoding a six-bit group. -/
def sextetChar (n : Nat) : Char := b64Alphabet.getD n ('A')

/-- Index of a character in a list, or `none`. -/
def charIndex (c : Char) : List Char → Nat → Option Nat
  | [], _ => none
  | a :: rest, i => if a == c then some i else charIndex c rest (i + 1)

/-- Six-bit group encoded by a character, or `none` for non-alphabet
characters (in particular for the padding character `=`). -/
def charSextet (c : Char) : Option Nat := charIndex c b64Alphabet 0

/-- Model of `base64::encode` (standard alphabet, `=` padding) on a byte
sequence: three bytes become four alphabet characters; a final group of
one or two bytes is padded. -/
def base64Encode : List Nat → List Char
  | [] => []
  | [b0] =>
      [sextetChar (b0 / 4), sextetChar (b0 % 4 * 16), '=', '=']
  | [b0, b1] =>
      [sextetChar (b0 / 4), sextetChar (b0 % 4 * 16 + b1 / 16),
       sextetChar (b1 % 16 * 4), '=']
  | b0 :: b1 :: b2 :: rest =>
      sextetChar (b0 / 4) :: sextetChar (b0 % 4 * 16 + b1 / 16) ::
        sextetChar (b1 % 16 * 4 + b2 / 64) :: sextetChar (b2 % 64) ::
        base64Encode rest

/-- Model of `base64::decode`: four characters at a time, with `=` padding
allowed only in the final group; non-alphabet characters and ragged
lengths fail. -/
def base64Decode : List Char → Option (List Nat)
  | [] => some []
  | c0 :: c1 :: c2 :: c3 :: rest =>
      match charSextet c0, charSextet c1 with
      | some s0, some s1 =>
          if c2 == '=' then
            if c3 == '=' && rest.isEmpty then some [s0 * 4 + s1 / 16] else none
          else
            match charSextet c2 with
            | some s2 =>
                if c3 == '=' then
                  if rest.isEmpty then some [s0 * 4 + s1 / 16, s1 % 16 * 16 + s2 / 4]
                  else none
                else
                  match charSextet c3, base64Decode rest with
                  | some s3, some bs =>
                      some ((s0 * 4 + s1 / 16) :: (s1 % 16 * 16 + s2 / 4) ::
                            (s2 % 4 * 64 + s3) :: bs)
                  | _, _ => none
            | none => none
      | _, _ => none
  | _ => none

/-- Model of the `Electrum` client struct (src/lib.rs lines 193-197); the
hyper `Client` field is the transport collaborator and carries no state
relevant to the claims. -/
structure Electrum where
  auth : String
  address : UriModel
deriving DecidableEq

/-- Precomputed Basic-auth header of `Electrum::new`:
`format!("Basic {}", base64::encode(format!("{}:{}", login, password)))`.
Strings are modelled by their UTF-8 byte sequences, with `58` the colon. -/
def authHeader (login password : List Nat) : String :=
  "Basic " ++ String.mk (base64Encode (login ++ (58 :: password)))

/-- Model of `Electrum::new` (src/lib.rs lines 201-212): parse the address
(any `InvalidUri` becomes `AddressError` through the `From` impl in
src/error.rs), then store the precomputed Basic-auth header and the
parsed address. -/
def Electrum.new (login password : List Nat) (address : String) : Except ElectrumRpcError Electrum :=
  match uriParse address with
  | Except.error e => Except.error (ElectrumRpcError.addressError e)
  | Except.ok uri => Except.ok ⟨authHeader login password, uri⟩

/-- Success test of a client-construction result. -/
def resultIsOk : Except ElectrumRpcError Electrum → Bool
  | Except.ok _ => true
  | Except.error _ => false

/-- Success test of a URI parse. -/
def uriOk : Except UriError UriModel → Bool
  | Except.ok _ => true
  | Except.error _ => false

/-- Envelope built by `get_help` (src/lib.rs lines 231-240): the only
operation that calls the builder's id setter, with the value 0. -/
def getHelpBody : JsonRpcBody :=
  ((JsonRpcBody.new.withId (0)).withMethod (ElectrumMethod.Help)).build

/-- Envelope built by `get_info` (src/lib.rs lines 243-251). -/
def getInfoBody : JsonRpcBody :=
  (JsonRpcBody.new.withMethod (ElectrumMethod.GetInfo)).build

/-- Envelope built by `get_balance` (src/lib.rs lines 254-262). -/
def getBalanceBody : JsonRpcBody :=
  (JsonRpcBody.new.withMethod (ElectrumMethod.GetBalance)).build

/-- Envelope built by `get_address_history` (src/lib.rs lines 266-278). -/
def getAddressHistoryBody (address : BtcAddress) : JsonRpcBody :=
  ((JsonRpcBody.new.withMethod (ElectrumMethod.GetAddressHistory)).addParam
    (Param.BtcAddress) (Json.str address.address)).build

/-- Envelope built by `get_address_balance` (src/lib.rs lines 282-294). -/
def getAddressBalanceBody (address : BtcAddress) : JsonRpcBody :=
  ((JsonRpcBody.new.withMethod (ElectrumMethod.GetAddressBalance)).addParam
    (Param.BtcAddress) (Json.str address.address)).build

/-- Envelope built by `list_wallets` (src/lib.rs lines 297-305). -/
def listWalletsBody : JsonRpcBody :=
  (JsonRpcBody.new.withMethod (ElectrumMethod.ListWallets)).build

/-- Envelope built by `load_wallet` (src/lib.rs lines 308-325): the
`wallet_path` parameter is added only when a path was supplied (the
`PathBuf` is modelled as its UTF-8 string, which is what
`path.to_str().unwrap()` extracts), the `password` parameter only when a
password was supplied. -/
def loadWalletBody (wallet_path : Option String) (password : Option String) : JsonRpcBody :=
  let b := JsonRpcBody.new.withMethod (ElectrumMethod.LoadWallet)
  let b := match wallet_path with
    | some path => b.addParam (Param.WalletPath) (Json.str path)
    | none => b
  let b := match password with
    | some pw => b.addParam (Param.Password) (Json.str pw)
    | none => b
  b.build

/-- Envelope built by `create_wallet` (src/lib.rs lines 328-336). -/
def createWalletBody : JsonRpcBody :=
  (JsonRpcBody.new.withMethod (ElectrumMethod.CreateWallet)).build

/-- Envelope built by `list_addresses` (src/lib.rs lines 341-349). -/
def listAddressesBody : JsonRpcBody :=
  (JsonRpcBody.new.withMethod (ElectrumMethod.ListAddresses)).build

/-- Envelope built by `notify` (src/lib.rs lines 353-366) — or `none` for a
panic.  The source runs `url.unwrap_or(Uri::from_static("")).to_string()`;
Rust's `unwrap_or` evaluates its argument eagerly, so `Uri::from_static("")`
runs on every call, and the empty string is not a valid URI, so
`from_static` panics before any envelope exists (see `uriFromStatic`). -/
def notifyBody (address : BtcAddress) (url : Option UriModel) : Option JsonRpcBody :=
  match uriFromStatic ("") with
  | none => none
  | some dflt =>
      let u := url.getD dflt
      some ((((JsonRpcBody.new.withMethod (ElectrumMethod.Notify)).addParam
        (Param.BtcAddress) (Json.str address.address)).addParam
        (Param.Url) (Json.str (uriToString u))).build)

/-- Envelope built by `restore_wallet` (src/lib.rs lines 371-380). -/
def restoreWalletBody (text : String) : JsonRpcBody :=
  ((JsonRpcBody.new.withMethod (ElectrumMethod.RestoreWallet)).addParam
    (Param.Text) (Json.str text)).build

/-- Envelope built by `sign_transaction` (src/lib.rs lines 383-392). -/
def signTransactionBody (tx : String) : JsonRpcBody :=
  ((JsonRpcBody.new.withMethod (ElectrumMethod.SignTransaction)).addParam
    (Param.Transaction) (Json.str tx)).build

/-- Envelope built by `broadcast` (src/lib.rs lines 395-404). -/
def broadcastBody (tx : String) : JsonRpcBody :=
  ((JsonRpcBody.new.withMethod (ElectrumMethod.Broadcast)).addParam
    (Param.Transaction) (Json.str tx)).build

/-- Envelope built by `pay_to` (src/lib.rs lines 407-423).  Line 415 of the
source writes `Param::De`, which is not a variant of `Param` and is
rejected by the Rust compiler; `Param::Destination` is the unique variant
whose name extends it, it is otherwise unused, and the spec names the
`destination` parameter here, so the model uses `Param.Destination` for
that line.  The amount and the optional fee are added exactly as in the
source: `Value::from(amount.to_string())`, and the `fee` parameter only
when a fee was supplied. -/
def payToBody (destination : BtcAddress) (amount : Decimal) (fee : Option Decimal) : JsonRpcBody :=
  let b := ((JsonRpcBody.new.withMethod (ElectrumMethod.PayTo)).addParam
    (Param.Destination) (Json.str destination.address)).addParam
    (Param.Amount) (Json.str amount.toStr)
  let b := match fee with
    | some f => b.addParam (Param.Fee) (Json.str f.toStr)
    | none => b
  b.build

/-- Envelope built by `pay_to_many` (src/lib.rs lines 426-442): the fee as
its decimal string, the outputs as `json!(Vec<(String, Decimal)>)` — an
array of two-element arrays whose `Decimal` component rust_decimal's serde
support serializes as its decimal string. -/
def payToManyBody (fee : Decimal) (outputs : List (String × Decimal)) : JsonRpcBody :=
  (((JsonRpcBody.new.withMethod (ElectrumMethod.PayToMany)).addParam
    (Param.Fee) (Json.str fee.toStr)).addParam
    (Param.Outputs)
    (Json.arr (outputs.map (fun o => Json.arr [Json.str o.1, Json.str o.2.toStr])))).build

/-- Envelope built by `close_wallet` (src/lib.rs lines 445-453). -/
def closeWalletBody : JsonRpcBody :=
  (JsonRpcBody.new.withMethod (ElectrumMethod.CloseWallet)).build

/-- Envelope built by `add_request` (src/lib.rs lines 459-471): the amount
as its decimal string, the `memo` parameter only when a memo was supplied. -/
def addRequestBody (amount : Decimal) (memo : Option String) : JsonRpcBody :=
  let b := (JsonRpcBody.new.withMethod (ElectrumMethod.AddRequest)).addParam
    (Param.Amount) (Json.str amount.toStr)
  let b := match memo with
    | some m => b.addParam (Param.Memo) (Json.str m)
    | none => b
  b.build

/-- Envelope built by `list_requests` (src/lib.rs lines 475-491). -/
def listRequestsBody (pending expired paid : Bool) : JsonRpcBody :=
  ((((JsonRpcBody.new.withMethod (ElectrumMethod.ListRequests)).addParam
    (Param.Pending) (Json.bool pending)).addParam
    (Param.Expired) (Json.bool expired)).addParam
    (Param.Paid) (Json.bool paid)).build

/-- Envelope built by `remove_request` (src/lib.rs lines 493-502). -/
def removeRequestBody (address : BtcAddress) : JsonRpcBody :=
  ((JsonRpcBody.new.withMethod (ElectrumMethod.RemoveRequest)).addParam
    (Param.BtcAddress) (Json.str address.address)).build

/-- Replacing the binding of a key twice is the same as inserting the final
value once (`HashMap::insert` map semantics). -/
theorem insertParam_idem (l : List (Param × Json)) (k : Param) (v₁ v₂ : Json) :
    insertParam (insertParam l k v₁) k v₂ = insertParam l k v₂ := by
  induction l with
  | nil => simp [insertParam]
  | cons hd tl ih =>
    obtain ⟨k', v'⟩ := hd
    by_cases h : k' = k
    · simp [insertParam, h]
    · simp [insertParam, h, ih]

/-- C1: the envelope built from a fresh builder with procedure `GetInfo`,
id `1111` and no parameters serializes to exactly
`{"json_rpc":2.0,"id":1111,"method":"getinfo","params":{}}`, with that
field order and the version rendered as `2.0`. -/
theorem getinfo_serialization :
    serializeBody (((JsonRpcBody.new.withId (1111)).withMethod (ElectrumMethod.GetInfo)).build) =
      "\x7b\"json_rpc\":2.0,\"id\":1111,\"method\":\"getinfo\",\"params\":\x7b\x7d\x7d" := by
  rfl

/-- C8: adding a parameter twice under the same key and then building gives
the same envelope as adding only the second value — the later write
replaces the earlier one. -/
theorem add_param_last_write_wins (b : JsonRpcBodyBuilder) (k : Param) (v₁ v₂ : Json) :
    ((b.addParam k v₁).addParam k v₂).build = (b.addParam k v₂).build := by
  simp [JsonRpcBodyBuilder.addParam, JsonRpcBodyBuilder.build, insertParam_idem]

/-- C5: `load_wallet` with no path and no password has the empty parameter
map, serializing to exactly the empty object; with only a password the
parameter map holds exactly the `password` binding and no `wallet_path`. -/
theorem load_wallet_params_exact :
    (loadWalletBody none none).params = [] ∧
    serializeParams ((loadWalletBody none none).params) = "\x7b\x7d" ∧
    (∀ pw : String, (loadWalletBody none (some pw)).params = [(Param.Password, Json.str pw)]) := by
  exact ⟨rfl, rfl, fun pw => rfl⟩

/-- C9: `notify` with `url = None` reaches `Uri::from_static("")`, whose
argument is not a valid URI, and panics (modelled by `none`) instead of
returning a typed error or an envelope without the URL parameter. -/
theorem notify_none_panics (address : BtcAddress) : notifyBody address none = none := rfl

/-- C4 counterexample: at the concrete address below, `notify` with an
absent URL does not produce any envelope with the URL key omitted — the
call panics before an envelope exists, refuting the claim for the
`notify` operation. -/
theorem notify_none_no_envelope :
    ¬ ∃ b, notifyBody ⟨"tb1qncyt0k7dr2kspmrg3znqu4k808c09k385v38dn"⟩ none = some b ∧
      lookupParam b.params (Param.Url) = none := by
  rintro ⟨b, hb, -⟩
  rw [show notifyBody ⟨"tb1qncyt0k7dr2kspmrg3znqu4k808c09k385v38dn"⟩ none = none from rfl] at hb
  cases hb

/-- C4 (amended): for `load_wallet`'s path and password, `pay_to`'s fee and
`add_request`'s memo, an absent optional argument leaves its key out of
the parameter map entirely (never `null`); `notify` is the exception — it
panics on every call while evaluating its default URL, so an absent URL
never yields an envelope at all. -/
theorem optional_args_omitted :
    (∀ pw : Option String, lookupParam ((loadWalletBody none pw).params) (Param.WalletPath) = none) ∧
    (∀ wp : Option String, lookupParam ((loadWalletBody wp none).params) (Param.Password) = none) ∧
    (∀ (d : BtcAddress) (a : Decimal), lookupParam ((payToBody d a none).params) (Param.Fee) = none) ∧
    (∀ a : Decimal, lookupParam ((addRequestBody a none).params) (Param.Memo) = none) ∧
    (∀ (ad : BtcAddress) (u : Option UriModel), notifyBody ad u = none) := by
  refine ⟨fun pw => ?_, fun wp => ?_, fun d a => rfl, fun a => rfl, fun ad u => rfl⟩
  · cases pw <;> rfl
  · cases wp <;> rfl

/-- C2: `pay_to` builds an envelope whose parameters map `destination` to
the destination's address string, `amount` to the amount's decimal string,
and contain a `fee` binding exactly when a fee was supplied.  (The source
line names the nonexistent variant `Param::De`; the model repairs it to
`Param.Destination`, see `payToBody`.) -/
theorem pay_to_params (destination : BtcAddress) (amount : Decimal) (fee : Option Decimal) :
    lookupParam ((payToBody destination amount fee).params) (Param.Destination) =
      some (Json.str destination.address) ∧
    lookupParam ((payToBody destination amount fee).params) (Param.Amount) =
      some (Json.str amount.toStr) ∧
    lookupParam ((payToBody destination amount fee).params) (Param.Fee) =
      fee.map (fun f => Json.str f.toStr) := by
  cases fee <;> exact ⟨rfl, rfl, rfl⟩

/-- C7: every decimal amount or fee passed to `pay_to`, `pay_to_many` or
`add_request` lands in the parameter map as the JSON *string* of its exact
decimal representation (via `Decimal.toStr`), never as a JSON number. -/
theorem decimals_as_strings :
    (∀ (d : BtcAddress) (a : Decimal) (f : Option Decimal),
        lookupParam ((payToBody d a f).params) (Param.Amount) = some (Json.str a.toStr)) ∧
    (∀ (d : BtcAddress) (a f : Decimal),
        lookupParam ((payToBody d a (some f)).params) (Param.Fee) = some (Json.str f.toStr)) ∧
    (∀ (f : Decimal) (outs : List (String × Decimal)),
        lookupParam ((payToManyBody f outs).params) (Param.Fee) = some (Json.str f.toStr) ∧
        lookupParam ((payToManyBody f outs).params) (Param.Outputs) =
          some (Json.arr (outs.map (fun o => Json.arr [Json.str o.1, Json.str o.2.toStr])))) ∧
    (∀ (a : Decimal) (m : Option String),
        lookupParam ((addRequestBody a m).params) (Param.Amount) = some (Json.str a.toStr)) := by
  refine ⟨fun d a f => ?_, fun d a f => rfl, fun f outs => ⟨rfl, rfl⟩, fun a m => ?_⟩
  · cases f <;> rfl
  · cases m <;> rfl

/-- Version and identifier of an envelope are at their defaults. -/
def headerOk (b : JsonRpcBody) : Prop := b.json_rpc = 2 ∧ b.id = 0

/-- C10: every envelope any public client operation builds carries
`json_rpc = 2.0` and `id = 0`: the builder's defaults, with `get_help` the
only operation that sets the id explicitly (to 0), and `notify` never
producing an envelope at all (it panics on its default URL).  The
operations listed here are the complete public surface of `Electrum`, so
no caller can choose a different request identifier. -/
theorem all_ops_default_header :
    (JsonRpcBodyBuilder.new.json_rpc = 2 ∧ JsonRpcBodyBuilder.new.id = 0) ∧
    headerOk getHelpBody ∧ headerOk getInfoBody ∧ headerOk getBalanceBody ∧
    (∀ a, headerOk (getAddressHistoryBody a)) ∧
    (∀ a, headerOk (getAddressBalanceBody a)) ∧
    headerOk listWalletsBody ∧
    (∀ wp pw, headerOk (loadWalletBody wp pw)) ∧
    headerOk createWalletBody ∧ headerOk listAddressesBody ∧
    (∀ a u, notifyBody a u = none) ∧
    (∀ t, headerOk (restoreWalletBody t)) ∧
    (∀ t, headerOk (signTransactionBody t)) ∧
    (∀ t, headerOk (broadcastBody t)) ∧
    (∀ d a f, headerOk (payToBody d a f)) ∧
    (∀ f o, headerOk (payToManyBody f o)) ∧
    headerOk closeWalletBody ∧
    (∀ a m, headerOk (addRequestBody a m)) ∧
    (∀ p e q, headerOk (listRequestsBody p e q)) ∧
    (∀ a, headerOk (removeRequestBody a)) := by
  refine ⟨⟨rfl, rfl⟩, ⟨rfl, rfl⟩, ⟨rfl, rfl⟩, ⟨rfl, rfl⟩, fun a => ⟨rfl, rfl⟩,
    fun a => ⟨rfl, rfl⟩, ⟨rfl, rfl⟩, fun wp pw => ?_, ⟨rfl, rfl⟩, ⟨rfl, rfl⟩,
    fun a u => rfl, fun t => ⟨rfl, rfl⟩, fun t => ⟨rfl, rfl⟩, fun t => ⟨rfl, rfl⟩,
    fun d a f => ?_, fun f o => ⟨rfl, rfl⟩, ⟨rfl, rfl⟩, fun a m => ?_,
    fun p e q => ⟨rfl, rfl⟩, fun a => ⟨rfl, rfl⟩⟩
  · cases wp <;> cases pw <;> exact ⟨rfl, rfl⟩
  · cases f <;> exact ⟨rfl, rfl⟩
  · cases m <;> exact ⟨rfl, rfl⟩

/-- Decoding inverts encoding on each six-bit group. -/
theorem charSextet_sextetChar (n : Nat) (h : n < 64) :
    charSextet (sextetChar n) = some n := by
  have key : ∀ m, m < 64 → charSextet (sextetChar m) = some m := by decide
  exact key n h

/-- No alphabet character is the padding character. -/
theorem sextetChar_ne_pad (n : Nat) : sextetChar n ≠ '=' := by
  by_cases h : n < 64
  · have key : ∀ m, m < 64 → sextetChar m ≠ '=' := by decide
    exact key n h
  · unfold sextetChar
    rw [List.getD_eq_default]
    · decide
    · have hlen : b64Alphabet.length = 64 := by rfl
      omega

/-- Boolean form of `sextetChar_ne_pad`. -/
theorem sextetChar_beq_pad (n : Nat) : (sextetChar n == '=') = false :=
  beq_eq_false_iff_ne.mpr (sextetChar_ne_pad n)

/-- Standard base64 decoding inverts encoding on every byte sequence. -/
theorem base64_roundtrip : ∀ (bs : List Nat), (∀ b ∈ bs, b < 256) →
    base64Decode (base64Encode bs) = some bs
  | [], _ => rfl
  | [b0], h => by
      have hb0 : b0 < 256 := h b0 (by simp)
      have e0 : charSextet (sextetChar (b0 / 4)) = some (b0 / 4) :=
        charSextet_sextetChar _ (by omega)
      have e1 : charSextet (sextetChar (b0 % 4 * 16)) = some (b0 % 4 * 16) :=
        charSextet_sextetChar _ (by omega)
      simp [base64Encode, base64Decode, e0, e1]
      omega
  | [b0, b1], h => by
      have hb0 : b0 < 256 := h b0 (by simp)
      have hb1 : b1 < 256 := h b1 (by simp)
      have e0 : charSextet (sextetChar (b0 / 4)) = some (b0 / 4) :=
        charSextet_sextetChar _ (by omega)
      have e1 : charSextet (sextetChar (b0 % 4 * 16 + b1 / 16)) = some (b0 % 4 * 16 + b1 / 16) :=
        charSextet_sextetChar _ (by omega)
      have e2 : charSextet (sextetChar (b1 % 16 * 4)) = some (b1 % 16 * 4) :=
        charSextet_sextetChar _ (by omega)
      simp [base64Encode, base64Decode, e0, e1, e2, sextetChar_beq_pad]
      omega
  | b0 :: b1 :: b2 :: rest, h => by
      have hb0 : b0 < 256 := h b0 (by simp)
      have hb1 : b1 < 256 := h b1 (by simp)
      have hb2 : b2 < 256 := h b2 (by simp)
      have ih := base64_roundtrip rest (fun b hb => h b (by simp [hb]))
      have e0 : charSextet (sextetChar (b0 / 4)) = some (b0 / 4) :=
        charSextet_sextetChar _ (by omega)
      have e1 : charSextet (sextetChar (b0 % 4 * 16 + b1 / 16)) = some (b0 % 4 * 16 + b1 / 16) :=
        charSextet_sextetChar _ (by omega)
      have e2 : charSextet (sextetChar (b1 % 16 * 4 + b2 / 64)) = some (b1 % 16 * 4 + b2 / 64) :=
        charSextet_sextetChar _ (by omega)
      have e3 : charSextet (sextetChar (b2 % 64)) = some (b2 % 64) :=
        charSextet_sextetChar _ (by omega)
      simp [base64Encode, base64Decode, e0, e1, e2, e3, sextetChar_beq_pad, ih]
      omega

/-- C6: the credential a successfully constructed client stores is
`"Basic <b64>"` with `<b64>` the standard base64 encoding of the bytes of
`login:password` (byte 58 is the colon), and base64-decoding `<b64>`
recovers exactly those bytes. -/
theorem new_auth_basic_roundtrip (login password : List Nat) (address : String) (e : Electrum)
    (hl : ∀ b ∈ login, b < 256) (hp : ∀ b ∈ password, b < 256)
    (hok : Electrum.new login password address = Except.ok e) :
    e.auth = "Basic " ++ String.mk (base64Encode (login ++ (58 :: password))) ∧
    base64Decode (base64Encode (login ++ (58 :: password))) = some (login ++ (58 :: password)) := by
  constructor
  · unfold Electrum.new at hok
    cases huri : uriParse address with
    | error err => rw [huri] at hok; cases hok
    | ok u => rw [huri] at hok; cases hok; rfl
  · apply base64_roundtrip
    intro b hb
    rcases List.mem_append.mp hb with h1 | h2
    · exact hl b h1
    · rcases List.mem_cons.mp h2 with h58 | hmem
      · omega
      · exact hp b hmem

/-- Witness for C6 at login `test`, password `test`, a parsable address:
decoding the stored base64 payload recovers the bytes of `test:test`. -/
theorem new_auth_basic_roundtrip_witness :
    base64Decode (base64Encode ([116, 101, 115, 116] ++ (58 :: [116, 101, 115, 116]))) =
      some ([116, 101, 115, 116] ++ (58 :: [116, 101, 115, 116])) :=
  (new_auth_basic_roundtrip [116, 101, 115, 116] [116, 101, 115, 116] ("http://x")
    ⟨"Basic dGVzdDp0ZXN0", ⟨some ("http"), "x", ""⟩⟩
    (by decide) (by decide) (by rfl)).2

/-- C3 counterexample: the scheme-less string `"127.0.0.1:7000"` — the
claim's own example — parses as an authority-form URI, so `Electrum::new`
succeeds on it rather than failing with `AddressError`. -/
theorem schemeless_address_accepted :
    resultIsOk (Electrum.new [116, 101, 115, 116] [116, 101, 115, 116] ("127.0.0.1:7000")) = true := by
  rfl

/-- C3 (amended): `Electrum::new` fails, always with `AddressError`, exactly
when the address string fails URI parsing — the empty string is such a
failure; a bare `host:port` without a scheme is *not*: it parses as an
authority-form URI and construction succeeds. -/
theorem address_error_iff_invalid_uri :
    (∀ login password : List Nat, Electrum.new login password ("") =
        Except.error (ElectrumRpcError.addressError (UriError.empty))) ∧
    resultIsOk (Electrum.new [116, 101, 115, 116] [116, 101, 115, 116] ("127.0.0.1:7000")) = true ∧
    (∀ (login password : List Nat) (s : String),
        resultIsOk (Electrum.new login password s) = uriOk (uriParse s)) := by
  refine ⟨fun l p => rfl, rfl, fun l p s => ?_⟩
  cases h : uriParse s <;> simp [Electrum.new, resultIsOk, uriOk, h]
